import Mathlib

set_option autoImplicit false

/-!
Verification of the Deribit historical-data download script
(`scripts/download_historical_data.py`).

The script is embedded shallowly:
* records returned by the API are association lists from field names to values;
* the `while` loop of `_fetch_data_in_chunks` is embedded with an explicit
  iteration bound (`fuel`); a bound of `(end - start).toNat` iterations is
  provably sufficient because every iteration advances the cursor by
  `chunk_size_ms ≥ 86400000 > 0` milliseconds, and the results are shown to be
  independent of any sufficient bound;
* Python `datetime` library behaviour (proleptic Gregorian calendar, naive
  datetimes interpreted in a fixed local zone of `tzOffsetSec` seconds east of
  UTC) is modelled explicitly;
* filesystem effects are modelled by explicit state passing of an `FS` value;
* `time.sleep` has no observable effect and is omitted.
-/

namespace Deribit

/-- Configuration constant `START_DATE` of the script header. -/
def START_DATE : String := "2025-07-10"

/-- Configuration constant `END_DATE` of the script header (non-inclusive). -/
def END_DATE : String := "2025-07-17"

/-- Configuration constant `INSTRUMENT_NAME` of the script header. -/
def INSTRUMENT_NAME : String := "BTC-PERPETUAL"

/-- Configuration constant `DATA_TYPE` of the script header. -/
def DATA_TYPE : String := "funding_rate_history"

/-- Configuration constant `OUTPUT_DIRECTORY` of the script header. -/
def OUTPUT_DIRECTORY : String := "./data/raw"

/-- Configuration constant `CHUNK_SIZE_DAYS` of the script header. -/
def CHUNK_SIZE_DAYS : Nat := 1

/-- One API record: a mapping of field name to value, as returned for one
funding-rate observation.  Python dicts preserve insertion order and have
distinct keys, so a record is an association list (key distinctness appears as
a `Nodup` hypothesis where it matters). -/
abbrev Record := List (String × String)

/-- Outcome of the HTTP request inside `_get_funding_rate_history_chunk`, as
observed by the code around it: either the `requests.exceptions.RequestException`
path (transport failure, or a 4xx/5xx status raised by `raise_for_status`), or a
parsed JSON object body, modelled as an association list from its top-level keys
to values of type `β`. -/
inductive HttpOutcome (β : Type) where
  | exn : HttpOutcome β
  | body (json : List (String × β)) : HttpOutcome β

/-- Embedding of `_get_funding_rate_history_chunk` (source lines 74–104) after
the request: if the body has a `result` key its value is returned, else if it
has an `error` key the function returns `None`, a request exception returns
`None`, and the trailing `return None` covers every other body shape. -/
def get_funding_rate_history_chunk {β : Type} (resp : HttpOutcome β) : Option β :=
  match resp with
  | .exn => none
  | .body json =>
    match json.lookup "result" with
    | some v => some v
    | none =>
      match json.lookup "error" with
      | some _ => none
      | none => none

/-- One chunk's contribution to the accumulator of `_fetch_data_in_chunks`:
Python's `if chunk_data:` is a truthiness test, so `None` and the empty list
both contribute nothing, and a non-empty list is appended whole by
`all_data.extend(chunk_data)`. -/
def chunkContribution {α : Type} (o : Option (List α)) : List α :=
  match o with
  | some l => if l.isEmpty then [] else l
  | none => []

/-- Value of `chunk_size_ms = chunk_size_days * 24 * 60 * 60 * 1000`
(source line 121). -/
def chunkSizeMs (chunk_size_days : Nat) : Int :=
  (chunk_size_days : Int) * 24 * 60 * 60 * 1000

/-- The `(current_start_ts, current_end_ts)` windows visited by the `while`
loop of `_fetch_data_in_chunks` (source lines 123–140): each iteration with
`current_start_ts < end_timestamp_ms` issues one fetch for the window
`[current_start_ts, min(current_start_ts + chunk_size_ms, end_timestamp_ms))`
and then advances by `chunk_size_ms`.  `fuel` is an explicit iteration bound;
any bound of at least `(endTs - cur).toNat` iterations yields the loop's true
behaviour when the stride is positive (see the loop-termination lemmas). -/
def loopWindows (fuel : Nat) (endTs chunkMs cur : Int) : List (Int × Int) :=
  match fuel with
  | 0 => []
  | fuel + 1 =>
    if cur < endTs then
      (cur, min (cur + chunkMs) endTs) :: loopWindows fuel endTs chunkMs (cur + chunkMs)
    else []

/-- The data accumulated by the `while` loop of `_fetch_data_in_chunks`
(source lines 123–140), fetching each window with `fetch` and appending each
truthy chunk result, with the same explicit iteration bound as
`loopWindows`. -/
def loopFetch {α : Type} (fuel : Nat) (fetch : Int → Int → Option (List α))
    (endTs chunkMs cur : Int) : List α :=
  match fuel with
  | 0 => []
  | fuel + 1 =>
    if cur < endTs then
      chunkContribution (fetch cur (min (cur + chunkMs) endTs)) ++
        loopFetch fuel fetch endTs chunkMs (cur + chunkMs)
    else []

/-- Embedding of `_fetch_data_in_chunks` (source lines 107–142): run the chunk
loop from `start_timestamp_ms`, with iteration bound
`(end_timestamp_ms - start_timestamp_ms).toNat`, which is sufficient because
each iteration advances the cursor by `chunk_size_ms ≥ 1`. -/
def fetch_data_in_chunks {α : Type} (fetch : Int → Int → Option (List α))
    (start_timestamp_ms end_timestamp_ms : Int) (chunk_size_days : Nat) : List α :=
  loopFetch (end_timestamp_ms - start_timestamp_ms).toNat fetch end_timestamp_ms
    (chunkSizeMs chunk_size_days) start_timestamp_ms

/-- Number of iterations the chunk loop performs: `⌈(endTs - cur) / chunkMs⌉`
when the range is non-empty, and `0` otherwise. -/
def numChunks (endTs chunkMs cur : Int) : Nat :=
  if cur < endTs then ((endTs - cur).toNat + chunkMs.toNat - 1) / chunkMs.toNat else 0

/-- Proleptic-Gregorian leap-year predicate, as in Python's `calendar.isleap`
and `datetime`. -/
def isLeapYear (y : Int) : Prop := y % 4 = 0 ∧ (y % 100 ≠ 0 ∨ y % 400 = 0)

instance (y : Int) : Decidable (isLeapYear y) := by unfold isLeapYear; infer_instance

/-- Length of month `m` of year `y` in the proleptic Gregorian calendar
(Python `datetime` rejects a day outside `1 ..= daysInMonth`). -/
def daysInMonth (y m : Int) : Int :=
  if m = 2 then (if isLeapYear y then 29 else 28)
  else if m = 4 ∨ m = 6 ∨ m = 9 ∨ m = 11 then 30 else 31

/-- Days before month `m` in a non-leap year (CPython `_DAYS_BEFORE_MONTH`). -/
def daysBeforeMonthCommon (m : Int) : Int :=
  if m ≤ 1 then 0 else if m = 2 then 31 else if m = 3 then 59 else if m = 4 then 90
  else if m = 5 then 120 else if m = 6 then 151 else if m = 7 then 181 else if m = 8 then 212
  else if m = 9 then 243 else if m = 10 then 273 else if m = 11 then 304 else 334

/-- Days before month `m` of year `y` (CPython `_days_before_month`). -/
def daysBeforeMonth (y m : Int) : Int :=
  daysBeforeMonthCommon m + (if 2 < m ∧ isLeapYear y then 1 else 0)

/-- Ordinal of the date `(y, m, d)`: days since 0001-01-01 plus one, exactly
CPython `datetime._ymd2ord` (so `toOrdinal 1970 1 1 = 719163`). -/
def toOrdinal (y m d : Int) : Int :=
  365 * (y - 1) + (y - 1) / 4 - (y - 1) / 100 + (y - 1) / 400 + daysBeforeMonth y m + d

/-- March-based day of year: day `t` (0-based, January-based) of a year whose
February has `28 + L` days, counted from the preceding March 1. -/
def marchDoy (L t : Int) : Int := if t < 59 + L then t + 306 else t - (59 + L)

/-- Month and day of the 0-based day `t` of a year whose February has `28 + L`
days, by the standard March-shifted arithmetic inverse of the cumulative month
lengths; `monthDay_recover` proves it inverts `daysBeforeMonth`, so it is
extensionally the in-year search of CPython `_ord2ymd`. -/
def monthDayInYear (L t : Int) : Int × Int :=
  if (5 * marchDoy L t + 2) / 153 < 10 then
    ((5 * marchDoy L t + 2) / 153 + 3,
      marchDoy L t - (153 * ((5 * marchDoy L t + 2) / 153) + 2) / 5 + 1)
  else
    ((5 * marchDoy L t + 2) / 153 - 9,
      marchDoy L t - (153 * ((5 * marchDoy L t + 2) / 153) + 2) / 5 + 1)

/-- Date of ordinal `N`: the 400/100/4/1-year quotient chain of CPython
`datetime._ord2ymd`, including its two special cases (`n1 = 4` or `n100 = 4`
mean the last day of a leap year), then the in-year month/day extraction. -/
def ord2ymd (N : Int) : Int × Int × Int :=
  if (N - 1) % 146097 % 36524 % 1461 / 365 = 4 ∨ (N - 1) % 146097 / 36524 = 4 then
    (400 * ((N - 1) / 146097) + 100 * ((N - 1) % 146097 / 36524)
      + 4 * ((N - 1) % 146097 % 36524 / 1461) + (N - 1) % 146097 % 36524 % 1461 / 365,
      12, 31)
  else
    (400 * ((N - 1) / 146097) + 100 * ((N - 1) % 146097 / 36524)
      + 4 * ((N - 1) % 146097 % 36524 / 1461) + (N - 1) % 146097 % 36524 % 1461 / 365 + 1,
      monthDayInYear
        (if (N - 1) % 146097 % 36524 % 1461 / 365 = 3
            ∧ ((N - 1) % 146097 % 36524 / 1461 ≠ 24 ∨ (N - 1) % 146097 / 36524 = 3)
         then 1 else 0)
        ((N - 1) % 146097 % 36524 % 1461 % 365))

/-- Days since the Unix epoch of the date `(y, m, d)`. -/
def epochDaysFromCivil (y m d : Int) : Int := toOrdinal y m d - 719163

/-- Date of the day `z` counted from the Unix epoch. -/
def epochDaysToCivil (z : Int) : Int × Int × Int := ord2ymd (z + 719163)

/-- Numeric value of a non-empty all-digit character list, `none` otherwise. -/
def digitsVal (cs : List Char) : Option Nat :=
  if cs ≠ [] ∧ cs.all Char.isDigit then
    some (cs.foldl (fun n c => 10 * n + (c.toNat - 48)) 0)
  else none

/-- Splits a character list at every dash, keeping empty fields. -/
def splitFields : List Char → List (List Char)
  | [] => [[]]
  | ch :: t =>
    match splitFields t with
    | [] => []
    | f :: r => if ch = '-' then [] :: f :: r else (ch :: f) :: r

/-- Model of `datetime.datetime.strptime(s, "%Y-%m-%d")`: three dash-separated
digit groups, year in `1 ..= 9999`, month in `1 ..= 12`, day at most the month
length; `none` models the `ValueError` the script does not catch. -/
def parseDate (s : String) : Option (Int × Int × Int) :=
  match (splitFields s.data).map digitsVal with
  | [some y, some mo, some dy] =>
    if 1 ≤ y ∧ y ≤ 9999 ∧ 1 ≤ mo ∧ mo ≤ 12 ∧ 1 ≤ dy ∧ (dy : Int) ≤ daysInMonth (y : Int) (mo : Int)
    then some ((y : Int), (mo : Int), (dy : Int))
    else none
  | _ => none

/-- Embedding of `_date_to_timestamp_ms` (source lines 22–32): `strptime` gives
local midnight of the parsed date, `.timestamp()` interprets it in the local
zone (modelled as the fixed offset `tzOffsetSec` seconds east of UTC), and
`int(... * 1000)` scales exactly to milliseconds. -/
def date_to_timestamp_ms (tzOffsetSec : Int) (s : String) : Option Int :=
  (parseDate s).map
    (fun x => (epochDaysFromCivil x.1 x.2.1 x.2.2 * 86400 - tzOffsetSec) * 1000)

/-- The calendar date printed for a timestamp by the loop of
`_fetch_data_in_chunks` (source lines 127–129):
`datetime.datetime.fromtimestamp(ts / 1000)` followed by `strftime("%Y-%m-%d")`,
in the same fixed local zone `tzOffsetSec`. -/
def timestamp_ms_to_date (tzOffsetSec : Int) (ms : Int) : Int × Int × Int :=
  epochDaysToCivil ((ms / 1000 + tzOffsetSec) / 86400)

/-- Embedding of `_generate_unique_filename` (source lines 34–47).  The run
timestamp `datetime.datetime.now().strftime("%Y%m%d-%H%M%S")` is the only
run-dependent input, so it is passed as the argument `run_timestamp`;
`run_timestamp_of_now` models how it is produced from the wall clock. -/
def generate_unique_filename (instrument data_type start_date end_date run_timestamp : String) :
    String :=
  "DERIBIT_" ++ instrument ++ "_" ++ data_type ++ "_from_" ++ start_date ++ "_to_" ++ end_date
    ++ "_at_" ++ run_timestamp ++ ".csv"

/-- Two-digit zero-padded decimal rendering, as `strftime` uses for
`%m %d %H %M %S`. -/
def twoDigits (n : Int) : String :=
  String.mk [Char.ofNat (48 + ((n / 10) % 10).toNat), Char.ofNat (48 + (n % 10).toNat)]

/-- Four-digit zero-padded decimal rendering, as `strftime` uses for `%Y`. -/
def fourDigits (n : Int) : String :=
  String.mk [Char.ofNat (48 + ((n / 1000) % 10).toNat), Char.ofNat (48 + ((n / 100) % 10).toNat),
    Char.ofNat (48 + ((n / 10) % 10).toNat), Char.ofNat (48 + (n % 10).toNat)]

/-- Model of `datetime.datetime.now().strftime("%Y%m%d-%H%M%S")` (source line
46): `now()` yields the wall-clock instant to microsecond precision, but the
format string keeps only whole seconds, so the microsecond field `_micro` is
discarded — two distinct instants inside the same second produce the same run
timestamp. -/
def run_timestamp_of_now (y mo d h mi s _micro : Int) : String :=
  fourDigits y ++ twoDigits mo ++ twoDigits d ++ "-" ++ twoDigits h ++ twoDigits mi
    ++ twoDigits s

/-- The filesystem state visible to the script: the set of existing directories
(for `os.path.exists` / `os.makedirs`) and the files with their contents, a CSV
file's content being its list of rows. -/
structure FS where
  dirs : List String
  files : List (String × List (List String))
deriving DecidableEq

/-- Characters before the last slash of a character list, or `none` if it has
no slash. -/
def beforeLastSlash : List Char → Option (List Char)
  | [] => none
  | c :: t =>
    match beforeLastSlash t with
    | some r => some (c :: r)
    | none => if c = '/' then some [] else none

/-- Model of `os.path.dirname` for the POSIX-style paths this script builds:
everything before the last slash, or the empty string if there is none. -/
def dirname (p : String) : String :=
  match beforeLastSlash p.data with
  | some r => String.mk r
  | none => ""

/-- The rows `csv.DictWriter` writes for `data` (source lines 66–71):
`writeheader` writes the keys of the first record in their original order, then
`writerows` writes, for each record in order, its value for each header key. -/
def csvRows (data : List Record) : List (List String) :=
  match data with
  | [] => []
  | r0 :: _ =>
    r0.map Prod.fst ::
      data.map (fun r => (r0.map Prod.fst).map (fun k => ((r.lookup k).getD "")))

/-- Embedding of `_save_data_to_csv` (source lines 49–72) as a transformer of
the filesystem state: an empty input returns before touching the filesystem;
otherwise the parent directory is created if absent and the file is written
(mode `"w"` replaces any previous content). -/
def save_data_to_csv (data : List Record) (file_path : String) (fs : FS) : FS :=
  if data.isEmpty then fs
  else
    let fs1 := if dirname file_path ∈ fs.dirs then fs
      else { fs with dirs := dirname file_path :: fs.dirs }
    { fs1 with
      files := (file_path, csvRows data) :: fs1.files.filter (fun f => f.1 ≠ file_path) }

/-- The aggregated dataset a run of `download_historical_data` computes before
deciding whether to save (source lines 152–165): date conversion of the two
configured dates, then the chunked fetch; `none` models the uncaught date-parse
exception. -/
def runFinalData (fetch : Int → Int → Option (List Record)) (tzOffsetSec : Int) :
    Option (List Record) :=
  match date_to_timestamp_ms tzOffsetSec START_DATE, date_to_timestamp_ms tzOffsetSec END_DATE with
  | some start_ts, some end_ts =>
    some (fetch_data_in_chunks fetch start_ts end_ts CHUNK_SIZE_DAYS)
  | _, _ => none

/-- Embedding of `download_historical_data` (source lines 145–180): if any
records were collected, generate the filename, join it to the output directory
and save; otherwise report that no data was downloaded (the returned `Bool`).
`none` models the uncaught date-parse exception. -/
def download_historical_data (fetch : Int → Int → Option (List Record))
    (run_timestamp : String) (tzOffsetSec : Int) (fs : FS) : Option (FS × Bool) :=
  match runFinalData fetch tzOffsetSec with
  | some final_data =>
    if final_data.isEmpty then some (fs, true)
    else
      some (save_data_to_csv final_data
        (OUTPUT_DIRECTORY ++ "/" ++
          generate_unique_filename INSTRUMENT_NAME DATA_TYPE START_DATE END_DATE run_timestamp)
        fs, false)
  | none => none

theorem chunkContribution_some {α : Type} (l : List α) :
    chunkContribution (some l) = l := by
  cases l <;> simp [chunkContribution]

theorem loopWindows_stop (fuel : Nat) (endTs chunkMs cur : Int) (h : ¬ cur < endTs) :
    loopWindows fuel endTs chunkMs cur = [] := by
  cases fuel <;> simp [loopWindows, h]

theorem loopFetch_stop {α : Type} (fuel : Nat) (fetch : Int → Int → Option (List α))
    (endTs chunkMs cur : Int) (h : ¬ cur < endTs) :
    loopFetch fuel fetch endTs chunkMs cur = [] := by
  cases fuel <;> simp [loopFetch, h]

theorem loopFetch_eq_flatMap {α : Type} (fuel : Nat) (fetch : Int → Int → Option (List α))
    (endTs chunkMs : Int) : ∀ cur : Int,
    loopFetch fuel fetch endTs chunkMs cur =
      (loopWindows fuel endTs chunkMs cur).flatMap
        (fun w => chunkContribution (fetch w.1 w.2)) := by
  induction fuel with
  | zero => intro cur; simp [loopFetch, loopWindows]
  | succ fuel ih =>
    intro cur
    by_cases h : cur < endTs
    · simp only [loopFetch, loopWindows, if_pos h, List.flatMap_cons, ih]
    · simp [loopFetch, loopWindows, h]

theorem loopWindows_congr (endTs chunkMs : Int) (hc : 0 < chunkMs) :
    ∀ fuel1 fuel2 : Nat, ∀ cur : Int, (endTs - cur).toNat ≤ fuel1 →
      (endTs - cur).toNat ≤ fuel2 →
      loopWindows fuel1 endTs chunkMs cur = loopWindows fuel2 endTs chunkMs cur := by
  intro fuel1
  induction fuel1 with
  | zero =>
    intro fuel2 cur h1 _
    have hne : ¬ cur < endTs := by omega
    rw [loopWindows_stop _ _ _ _ hne, loopWindows_stop _ _ _ _ hne]
  | succ fuel1 ih =>
    intro fuel2 cur h1 h2
    by_cases h : cur < endTs
    · obtain ⟨f2, rfl⟩ : ∃ f2, fuel2 = f2 + 1 := by
        cases fuel2 with
        | zero => exact absurd h2 (by omega)
        | succ f2 => exact ⟨f2, rfl⟩
      simp only [loopWindows, if_pos h]
      congr 1
      exact ih f2 (cur + chunkMs) (by omega) (by omega)
    · rw [loopWindows_stop _ _ _ _ h, loopWindows_stop _ _ _ _ h]

theorem loopFetch_congr {α : Type} (fetch : Int → Int → Option (List α))
    (endTs chunkMs : Int) (hc : 0 < chunkMs) (fuel1 fuel2 : Nat) (cur : Int)
    (h1 : (endTs - cur).toNat ≤ fuel1) (h2 : (endTs - cur).toNat ≤ fuel2) :
    loopFetch fuel1 fetch endTs chunkMs cur = loopFetch fuel2 fetch endTs chunkMs cur := by
  rw [loopFetch_eq_flatMap, loopFetch_eq_flatMap,
    loopWindows_congr endTs chunkMs hc fuel1 fuel2 cur h1 h2]

theorem numChunks_succ (endTs chunkMs cur : Int) (hc : 0 < chunkMs) (h : cur < endTs) :
    numChunks endTs chunkMs cur = numChunks endTs chunkMs (cur + chunkMs) + 1 := by
  by_cases h2 : cur + chunkMs < endTs
  · have he : (endTs - (cur + chunkMs)).toNat = (endTs - cur).toNat - chunkMs.toNat := by
      omega
    simp only [numChunks, if_pos h, if_pos h2, he]
    have hsplit : (endTs - cur).toNat + chunkMs.toNat - 1
        = ((endTs - cur).toNat - chunkMs.toNat + chunkMs.toNat - 1) + chunkMs.toNat := by
      omega
    rw [hsplit, Nat.add_div_right _ (by omega)]
  · simp only [numChunks, if_pos h, if_neg h2]
    have hsplit : (endTs - cur).toNat + chunkMs.toNat - 1
        = ((endTs - cur).toNat - 1) + chunkMs.toNat := by omega
    rw [hsplit, Nat.add_div_right _ (by omega), Nat.div_eq_of_lt (by omega)]

theorem loopWindows_closed (endTs chunkMs : Int) (hc : 0 < chunkMs) :
    ∀ fuel : Nat, ∀ cur : Int, (endTs - cur).toNat ≤ fuel →
      loopWindows fuel endTs chunkMs cur =
        (List.range (numChunks endTs chunkMs cur)).map
          (fun i : Nat => (cur + (i : Int) * chunkMs, min (cur + ((i : Int) + 1) * chunkMs) endTs)) := by
  intro fuel
  induction fuel with
  | zero =>
    intro cur h
    have hne : ¬ cur < endTs := by omega
    rw [loopWindows_stop _ _ _ _ hne]
    simp [numChunks, hne]
  | succ fuel ih =>
    intro cur h
    by_cases hlt : cur < endTs
    · rw [numChunks_succ endTs chunkMs cur hc hlt]
      simp only [loopWindows, if_pos hlt]
      rw [ih (cur + chunkMs) (by omega), List.range_succ_eq_map, List.map_cons, List.map_map]
      congr 1
      · norm_num
      · refine List.map_congr_left ?_
        intro i _
        simp only [Function.comp_apply, Prod.mk.injEq]
        constructor
        · push_cast; ring
        · congr 1
          push_cast; ring
    · rw [loopWindows_stop _ _ _ _ hlt]
      simp [numChunks, hlt]

theorem loopWindows_length (endTs chunkMs : Int) (hc : 0 < chunkMs) (fuel : Nat) (cur : Int)
    (h : (endTs - cur).toNat ≤ fuel) :
    (loopWindows fuel endTs chunkMs cur).length = numChunks endTs chunkMs cur := by
  rw [loopWindows_closed endTs chunkMs hc fuel cur h, List.length_map, List.length_range]

theorem eraDecomp (y q c b a : Int) (hdec : y - 1 = 400 * q + 100 * c + 4 * b + a)
    (hc1 : 0 ≤ c) (hc2 : c ≤ 3) (hb1 : 0 ≤ b) (hb2 : b ≤ 24) (ha1 : 0 ≤ a) (ha2 : a ≤ 3) :
    365 * (y - 1) + (y - 1) / 4 - (y - 1) / 100 + (y - 1) / 400
      = 146097 * q + 36524 * c + 1461 * b + 365 * a := by
  omega

theorem leapDecomp (y q c b a : Int) (hdec : y - 1 = 400 * q + 100 * c + 4 * b + a)
    (hc1 : 0 ≤ c) (hc2 : c ≤ 3) (hb1 : 0 ≤ b) (hb2 : b ≤ 24) (ha1 : 0 ≤ a) (ha2 : a ≤ 3) :
    isLeapYear y ↔ (a = 3 ∧ (b ≠ 24 ∨ c = 3)) := by
  unfold isLeapYear
  omega

theorem ord2ymd_extract (N q c b a t : Int)
    (hN : N - 1 = 146097 * q + 36524 * c + 1461 * b + 365 * a + t)
    (hc1 : 0 ≤ c) (hc2 : c ≤ 3) (hb1 : 0 ≤ b) (hb2 : b ≤ 24) (ha1 : 0 ≤ a) (ha2 : a ≤ 3)
    (ht1 : 0 ≤ t) (ht2 : t ≤ 364) :
    ord2ymd N = (400 * q + 100 * c + 4 * b + a + 1,
      monthDayInYear (if a = 3 ∧ (b ≠ 24 ∨ c = 3) then 1 else 0) t) := by
  have e1 : (N - 1) / 146097 = q := by omega
  have e2 : (N - 1) % 146097 = 36524 * c + 1461 * b + 365 * a + t := by omega
  have e3 : (36524 * c + 1461 * b + 365 * a + t) / 36524 = c := by omega
  have e4 : (36524 * c + 1461 * b + 365 * a + t) % 36524 = 1461 * b + 365 * a + t := by omega
  have e5 : (1461 * b + 365 * a + t) / 1461 = b := by omega
  have e6 : (1461 * b + 365 * a + t) % 1461 = 365 * a + t := by omega
  have e7 : (365 * a + t) / 365 = a := by omega
  have e8 : (365 * a + t) % 365 = t := by omega
  simp only [ord2ymd, e1, e2, e3, e4, e5, e6, e7, e8]
  rw [if_neg (by omega)]

theorem ord2ymd_extract_dec31 (N q c b a : Int)
    (hN : N - 1 = 146097 * q + 36524 * c + 1461 * b + 365 * a + 365)
    (hc1 : 0 ≤ c) (hc2 : c ≤ 3) (hb1 : 0 ≤ b) (hb2 : b ≤ 24) (ha : a = 3)
    (hleap : b ≠ 24 ∨ c = 3) :
    ord2ymd N = (400 * q + 100 * c + 4 * b + a + 1, 12, 31) := by
  by_cases hb : b = 24
  · have hcc : c = 3 := by tauto
    have e1 : (N - 1) / 146097 = q := by omega
    have e2 : (N - 1) % 146097 = 146096 := by omega
    simp only [ord2ymd, e1, e2]
    norm_num
    omega
  · have e1 : (N - 1) / 146097 = q := by omega
    have e2 : (N - 1) % 146097 = 36524 * c + 1461 * b + 1460 := by omega
    have e3 : (36524 * c + 1461 * b + 1460) / 36524 = c := by omega
    have e4 : (36524 * c + 1461 * b + 1460) % 36524 = 1461 * b + 1460 := by omega
    have e5 : (1461 * b + 1460) / 1461 = b := by omega
    have e6 : (1461 * b + 1460) % 1461 = 1460 := by omega
    simp only [ord2ymd, e1, e2, e3, e4, e5, e6]
    norm_num
    omega

theorem dayOfYear_bounds (y m d : Int) (hm1 : 1 ≤ m) (hm2 : m ≤ 12)
    (hd1 : 1 ≤ d) (hd2 : d ≤ daysInMonth y m) :
    0 ≤ daysBeforeMonth y m + d - 1 ∧
      (daysBeforeMonth y m + d - 1 ≤ 364 ∨
        (daysBeforeMonth y m + d - 1 = 365 ∧ m = 12 ∧ d = 31 ∧ isLeapYear y)) := by
  by_cases hYl : isLeapYear y <;> interval_cases m <;>
    simp_all [daysBeforeMonth, daysBeforeMonthCommon, daysInMonth] <;> omega

theorem monthDay_recover (y m d : Int) (L : Int) (hL : L = if isLeapYear y then 1 else 0)
    (hm1 : 1 ≤ m) (hm2 : m ≤ 12) (hd1 : 1 ≤ d) (hd2 : d ≤ daysInMonth y m) :
    monthDayInYear L (daysBeforeMonth y m + d - 1) = (m, d) := by
  rw [daysInMonth] at hd2
  rw [daysBeforeMonth]
  by_cases hy : isLeapYear y
  · rw [if_pos hy] at hL
    interval_cases m <;>
      (norm_num [daysBeforeMonthCommon, hy] at hd2 ⊢
       simp only [monthDayInYear, marchDoy, hL]
       split_ifs <;> simp only [Prod.mk.injEq, true_and, and_true] <;> omega)
  · rw [if_neg hy] at hL
    interval_cases m <;>
      (norm_num [daysBeforeMonthCommon, hy] at hd2 ⊢
       simp only [monthDayInYear, marchDoy, hL]
       split_ifs <;> simp only [Prod.mk.injEq, true_and, and_true] <;> omega)

theorem ord2ymd_toOrdinal (y m d : Int) (hy : 1 ≤ y) (hm1 : 1 ≤ m) (hm2 : m ≤ 12)
    (hd1 : 1 ≤ d) (hd2 : d ≤ daysInMonth y m) :
    ord2ymd (toOrdinal y m d) = (y, m, d) := by
  obtain ⟨q, c, b, a, hdec, hq, hc1, hc2, hb1, hb2, ha1, ha2⟩ :
      ∃ q c b a : Int, y - 1 = 400 * q + 100 * c + 4 * b + a ∧ 0 ≤ q ∧
        0 ≤ c ∧ c ≤ 3 ∧ 0 ≤ b ∧ b ≤ 24 ∧ 0 ≤ a ∧ a ≤ 3 :=
    ⟨(y - 1) / 400, (y - 1) % 400 / 100, (y - 1) % 400 % 100 / 4, (y - 1) % 400 % 100 % 4,
      by omega⟩
  have hE : toOrdinal y m d - 1
      = 146097 * q + 36524 * c + 1461 * b + 365 * a + (daysBeforeMonth y m + d - 1) := by
    have := eraDecomp y q c b a hdec hc1 hc2 hb1 hb2 ha1 ha2
    simp only [toOrdinal]
    omega
  have hleap := leapDecomp y q c b a hdec hc1 hc2 hb1 hb2 ha1 ha2
  obtain ⟨ht0, hcases⟩ := dayOfYear_bounds y m d hm1 hm2 hd1 hd2
  rcases hcases with ht364 | ⟨ht365, hm12, hd31, hYl⟩
  · have hflag : (if a = 3 ∧ (b ≠ 24 ∨ c = 3) then (1 : Int) else 0)
        = (if isLeapYear y then 1 else 0) :=
      (if_congr hleap.symm rfl rfl)
    rw [ord2ymd_extract (toOrdinal y m d) q c b a (daysBeforeMonth y m + d - 1) hE
      hc1 hc2 hb1 hb2 ha1 ha2 ht0 ht364]
    rw [hflag, monthDay_recover y m d _ rfl hm1 hm2 hd1 hd2]
    simp only [Prod.mk.injEq, true_and, and_true]
    omega
  · obtain ⟨ha3, hbc⟩ : a = 3 ∧ (b ≠ 24 ∨ c = 3) := hleap.mp hYl
    rw [ord2ymd_extract_dec31 (toOrdinal y m d) q c b a (by omega) hc1 hc2 hb1 hb2 ha3 hbc]
    simp only [Prod.mk.injEq]
    omega

theorem parseDate_bounds (s : String) (y m d : Int) (h : parseDate s = some (y, m, d)) :
    1 ≤ y ∧ y ≤ 9999 ∧ 1 ≤ m ∧ m ≤ 12 ∧ 1 ≤ d ∧ d ≤ daysInMonth y m := by
  unfold parseDate at h
  split at h
  · split at h
    · rename_i hcond
      obtain ⟨c1, c2, c3, c4, c5, c6⟩ := hcond
      simp only [Option.some.injEq, Prod.mk.injEq] at h
      obtain ⟨rfl, rfl, rfl⟩ := h
      exact ⟨by omega, by omega, by omega, by omega, by omega, c6⟩
    · exact absurd h (by simp)
  · exact absurd h (by simp)

theorem loopWindows_length_le_fuel (fuel : Nat) (endTs chunkMs : Int) : ∀ cur : Int,
    (loopWindows fuel endTs chunkMs cur).length ≤ fuel := by
  induction fuel with
  | zero => intro cur; simp [loopWindows]
  | succ fuel ih =>
    intro cur
    by_cases h : cur < endTs
    · simp only [loopWindows, if_pos h, List.length_cons]
      exact Nat.succ_le_succ (ih (cur + chunkMs))
    · simp [loopWindows, h]

theorem flatMap_length_const {α β : Type} (l : List α) (f : α → List β) (N : Nat)
    (h : ∀ x ∈ l, (f x).length = N) : (l.flatMap f).length = l.length * N := by
  induction l with
  | nil => simp
  | cons x t ih =>
    have hx := h x (by simp)
    have ht := ih (fun y hy => h y (by simp [hy]))
    simp only [List.flatMap_cons, List.length_append, List.length_cons, hx, ht]
    ring

theorem lookup_cons_self (k v : String) (t : Record) : ((k, v) :: t).lookup k = some v := by
  simp [List.lookup]

theorem lookup_cons_ne (k v x : String) (t : Record) (hx : x ≠ k) :
    ((k, v) :: t).lookup x = t.lookup x := by
  have hb : (x == k) = false := beq_eq_false_iff_ne.mpr hx
  simp [List.lookup, hb]

theorem lookup_self_values (r : Record) (hnd : (r.map Prod.fst).Nodup) :
    (r.map Prod.fst).map (fun k => ((r.lookup k).getD "")) = r.map Prod.snd := by
  induction r with
  | nil => rfl
  | cons p t ih =>
    obtain ⟨k, v⟩ := p
    simp only [List.map_cons, List.nodup_cons] at hnd ⊢
    obtain ⟨hk, hnd'⟩ := hnd
    have hstep : List.map (fun x => ((((k, v) :: t).lookup x).getD "")) (t.map Prod.fst)
        = List.map (fun x => ((t.lookup x).getD "")) (t.map Prod.fst) :=
      List.map_congr_left (fun x hx => by
        rw [lookup_cons_ne k v x t (fun he => hk (he ▸ hx))])
    rw [lookup_cons_self]
    simp only [Option.getD_some]
    rw [hstep, ih hnd']

theorem append_inj_middle (p s t1 t2 : String) (h : p ++ t1 ++ s = p ++ t2 ++ s) : t1 = t2 := by
  have hd : p.data ++ t1.data ++ s.data = p.data ++ t2.data ++ s.data := by
    have := congrArg String.data h
    simpa using this
  have hd2 : p.data ++ (t1.data ++ s.data) = p.data ++ (t2.data ++ s.data) := by
    simpa [List.append_assoc] using hd
  have h1 : t1.data ++ s.data = t2.data ++ s.data := List.append_cancel_left hd2
  have h2 : t1.data = t2.data := List.append_cancel_right h1
  cases t1
  cases t2
  exact congrArg String.mk h2

theorem save_files_nonempty (data : List Record) (file_path : String) (fs : FS)
    (hne : data ≠ []) :
    (save_data_to_csv data file_path fs).files
      = (file_path, csvRows data) :: fs.files.filter (fun f => f.1 ≠ file_path) := by
  unfold save_data_to_csv
  rw [if_neg (by simpa [List.isEmpty_iff] using hne)]
  by_cases hdir : dirname file_path ∈ fs.dirs <;> simp [hdir]

/-- Fetcher used by witnesses: fails on the first chunk of the example range,
returns one record elsewhere. -/
def failFirstFetcher : Int → Int → Option (List Nat) :=
  fun s _ => if s = 1752105600000 then none else some [7]

/-- Fetcher used by witnesses: always succeeds with two records. -/
def twoRecordFetcher : Int → Int → Option (List Nat) := fun _ _ => some [5, 6]

/-- Fetcher used by witnesses: every request fails. -/
def alwaysFailFetcher : Int → Int → Option (List Record) := fun _ _ => none

/-- C1: for every start timestamp `S` and end timestamp `E` with `S < E` and
chunk size `C = chunk_size_days * 24 * 60 * 60 * 1000` milliseconds
(`chunk_size_days ≥ 1`), the while loop of `_fetch_data_in_chunks` invokes the
single-chunk fetcher exactly `⌈(E - S) / C⌉` times, and the `i`-th call
(0-based) covers the window `[S + i*C, min (S + (i+1)*C) E)`; `loopWindows` is
the sequence of `(current_start_ts, current_end_ts)` windows the loop passes to
the fetcher. -/
theorem chunk_call_windows (S E : Int) (days : Nat) (hSE : S < E) (hdays : 1 ≤ days) :
    (loopWindows (E - S).toNat E (chunkSizeMs days) S).length
        = ((E - S).toNat + (chunkSizeMs days).toNat - 1) / (chunkSizeMs days).toNat ∧
      loopWindows (E - S).toNat E (chunkSizeMs days) S
        = (List.range
            (((E - S).toNat + (chunkSizeMs days).toNat - 1) / (chunkSizeMs days).toNat)).map
            (fun i : Nat => (S + (i : Int) * chunkSizeMs days,
              min (S + ((i : Int) + 1) * chunkSizeMs days) E)) := by
  have hc : 0 < chunkSizeMs days := by
    simp only [chunkSizeMs]
    have h1 : (1 : Int) ≤ (days : Int) := by exact_mod_cast hdays
    omega
  have hnum : ((E - S).toNat + (chunkSizeMs days).toNat - 1) / (chunkSizeMs days).toNat
      = numChunks E (chunkSizeMs days) S := by
    simp [numChunks, hSE]
  rw [hnum]
  exact ⟨loopWindows_length E (chunkSizeMs days) hc _ S le_rfl,
    loopWindows_closed E (chunkSizeMs days) hc _ S le_rfl⟩

/-- C1 witness: the spec's example, start 2025-07-10, end 2025-07-12 (local
midnight timestamps for offset 0), `chunk_size_days = 1`: exactly 2 calls, for
the windows 07-10 to 07-11 and 07-11 to 07-12. -/
theorem chunk_call_windows_witness :
    (date_to_timestamp_ms 0 "2025-07-10" = some 1752105600000 ∧
      date_to_timestamp_ms 0 "2025-07-12" = some 1752278400000 ∧
      (1752105600000 : Int) < 1752278400000 ∧ (1 : Nat) ≤ 1) ∧
    ((loopWindows ((1752278400000 : Int) - 1752105600000).toNat 1752278400000 (chunkSizeMs 1)
          1752105600000).length
        = (((1752278400000 : Int) - 1752105600000).toNat + (chunkSizeMs 1).toNat - 1)
            / (chunkSizeMs 1).toNat ∧
      loopWindows ((1752278400000 : Int) - 1752105600000).toNat 1752278400000 (chunkSizeMs 1)
          1752105600000
        = (List.range
            ((((1752278400000 : Int) - 1752105600000).toNat + (chunkSizeMs 1).toNat - 1)
              / (chunkSizeMs 1).toNat)).map
            (fun i : Nat => ((1752105600000 : Int) + (i : Int) * chunkSizeMs 1,
              min ((1752105600000 : Int) + ((i : Int) + 1) * chunkSizeMs 1) 1752278400000))) ∧
    loopWindows ((1752278400000 : Int) - 1752105600000).toNat 1752278400000 (chunkSizeMs 1)
        1752105600000
      = [(1752105600000, 1752192000000), (1752192000000, 1752278400000)] ∧
    (((1752278400000 : Int) - 1752105600000).toNat + (chunkSizeMs 1).toNat - 1)
        / (chunkSizeMs 1).toNat = 2 :=
  ⟨⟨by decide, by decide, by decide, by decide⟩,
    chunk_call_windows 1752105600000 1752278400000 1 (by decide) (by decide),
    by decide, by decide⟩

/-- C2: if the single-chunk fetcher returns the failure signal `None` on one of
the loop's windows, `_fetch_data_in_chunks` still returns a value (no exception
propagates): its result is the concatenation, over every window the loop
visits, of that chunk's contribution — so the loop continues past the failed
chunk — and the failed chunk's contribution is exactly the empty list. -/
theorem failed_chunk_zero_records {α : Type} (fetch : Int → Int → Option (List α))
    (S E : Int) (days : Nat) (w : Int × Int)
    (hw : w ∈ loopWindows (E - S).toNat E (chunkSizeMs days) S)
    (hf : fetch w.1 w.2 = none) :
    fetch_data_in_chunks fetch S E days
        = (loopWindows (E - S).toNat E (chunkSizeMs days) S).flatMap
            (fun v => chunkContribution (fetch v.1 v.2)) ∧
      chunkContribution (fetch w.1 w.2) = [] := by
  refine ⟨loopFetch_eq_flatMap _ fetch E (chunkSizeMs days) S, ?_⟩
  rw [hf]
  rfl

/-- C2 witness: on the two-chunk range 2025-07-10 to 2025-07-12 a fetcher that
fails on the first window and returns `[7]` on the second yields exactly `[7]`:
the failed chunk contributed zero records and the loop went on. -/
theorem failed_chunk_zero_records_witness :
    (((1752105600000 : Int), (1752192000000 : Int)) ∈
        loopWindows ((1752278400000 : Int) - 1752105600000).toNat 1752278400000 (chunkSizeMs 1)
          1752105600000 ∧
      failFirstFetcher 1752105600000 1752192000000 = none) ∧
    (fetch_data_in_chunks failFirstFetcher 1752105600000 1752278400000 1
        = (loopWindows ((1752278400000 : Int) - 1752105600000).toNat 1752278400000
            (chunkSizeMs 1) 1752105600000).flatMap
            (fun v => chunkContribution (failFirstFetcher v.1 v.2)) ∧
      chunkContribution (failFirstFetcher 1752105600000 1752192000000) = []) ∧
    fetch_data_in_chunks failFirstFetcher 1752105600000 1752278400000 1 = [7] :=
  ⟨⟨by decide, by decide⟩,
    failed_chunk_zero_records failFirstFetcher 1752105600000 1752278400000 1
      (1752105600000, 1752192000000) (by decide) (by decide),
    by decide⟩

/-- C3: for a non-empty record list in which every record has the first
record's key sequence, `_save_data_to_csv` stores at the target path a file
whose first row is exactly the first record's keys in their original order,
followed by one row per record in input order (the record's values in key
order), so the file has `number of records + 1` rows. -/
theorem csv_header_and_rows (r0 : Record) (rest : List Record) (file_path : String) (fs : FS)
    (hkeys : ∀ r ∈ r0 :: rest, r.map Prod.fst = r0.map Prod.fst)
    (hnd : (r0.map Prod.fst).Nodup) :
    (save_data_to_csv (r0 :: rest) file_path fs).files.lookup file_path
        = some (r0.map Prod.fst :: (r0 :: rest).map (fun r => r.map Prod.snd)) ∧
      (r0.map Prod.fst :: (r0 :: rest).map (fun r => r.map Prod.snd)).length
        = (r0 :: rest).length + 1 := by
  have hrows : csvRows (r0 :: rest)
      = r0.map Prod.fst :: (r0 :: rest).map (fun r => r.map Prod.snd) := by
    simp only [csvRows]
    congr 1
    refine List.map_congr_left (fun r hr => ?_)
    rw [← hkeys r hr]
    exact lookup_self_values r (by rw [hkeys r hr]; exact hnd)
  constructor
  · rw [save_files_nonempty (r0 :: rest) file_path fs (by simp), hrows]
    simp [List.lookup]
  · simp

/-- C3 witness: two records sharing the key sequence `["a", "b"]` produce the
header row and one value row each, three rows in total. -/
theorem csv_header_and_rows_witness :
    ((∀ r ∈ ([[("a", "1"), ("b", "2")], [("a", "3"), ("b", "4")]] : List Record),
        r.map Prod.fst = ([("a", "1"), ("b", "2")] : Record).map Prod.fst) ∧
      (([("a", "1"), ("b", "2")] : Record).map Prod.fst).Nodup) ∧
    ((save_data_to_csv ([("a", "1"), ("b", "2")] :: [[("a", "3"), ("b", "4")]])
          "./data/raw/f.csv" ⟨[], []⟩).files.lookup "./data/raw/f.csv"
        = some (([("a", "1"), ("b", "2")] : Record).map Prod.fst
            :: (([("a", "1"), ("b", "2")] : Record) :: [[("a", "3"), ("b", "4")]]).map
              (fun r => r.map Prod.snd)) ∧
      ((([("a", "1"), ("b", "2")] : Record).map Prod.fst
          :: (([("a", "1"), ("b", "2")] : Record) :: [[("a", "3"), ("b", "4")]]).map
            (fun r => r.map Prod.snd)).length
        = (([("a", "1"), ("b", "2")] : Record) :: [[("a", "3"), ("b", "4")]]).length + 1)) :=
  ⟨⟨by decide, by decide⟩,
    csv_header_and_rows [("a", "1"), ("b", "2")] [[("a", "3"), ("b", "4")]]
      "./data/raw/f.csv" ⟨[], []⟩ (by decide) (by decide)⟩

/-- C4 as amended: `_generate_unique_filename` returns exactly the pattern
`DERIBIT_<instrument>_<data_type>_from_<start>_to_<end>_at_<run_timestamp>.csv`,
and two runs with identical instrument, data type, start and end whose
`%Y%m%d-%H%M%S` run timestamps differ — that is, runs not falling within the
same wall-clock second — return distinct filenames.  The original claim's
unconditional uniqueness across distinct runs is refuted by
`filename_same_second_collision`: the stamp has one-second resolution, so the
distinct-stamp hypothesis is necessary. -/
theorem filename_pattern_and_unique (instrument data_type start_date end_date t1 t2 : String)
    (h : t1 ≠ t2) :
    generate_unique_filename instrument data_type start_date end_date t1
        = "DERIBIT_" ++ instrument ++ "_" ++ data_type ++ "_from_" ++ start_date ++ "_to_"
            ++ end_date ++ "_at_" ++ t1 ++ ".csv" ∧
      generate_unique_filename instrument data_type start_date end_date t1
        ≠ generate_unique_filename instrument data_type start_date end_date t2 :=
  ⟨rfl, fun hcontra => h (append_inj_middle _ ".csv" t1 t2 hcontra)⟩

/-- C4 counterexample: two distinct wall-clock instants of `datetime.now()`
lying in the same second — here 08:00:00.000000 and 08:00:00.500000 on
2025-07-12 — are formatted to the same `%Y%m%d-%H%M%S` run timestamp, so two
distinct runs with identical parameters return identical filenames: uniqueness
across distinct runs is not guaranteed by the appended run timestamp. -/
theorem filename_same_second_collision :
    (0 : Int) ≠ 500000 ∧
    run_timestamp_of_now 2025 7 12 8 0 0 0 = "20250712-080000" ∧
    run_timestamp_of_now 2025 7 12 8 0 0 0 = run_timestamp_of_now 2025 7 12 8 0 0 500000 ∧
    generate_unique_filename "BTC-PERPETUAL" "funding_rate_history" "2025-07-10" "2025-07-17"
        (run_timestamp_of_now 2025 7 12 8 0 0 0)
      = generate_unique_filename "BTC-PERPETUAL" "funding_rate_history" "2025-07-10" "2025-07-17"
        (run_timestamp_of_now 2025 7 12 8 0 0 500000) :=
  ⟨by decide, by decide, rfl, rfl⟩

/-- C4 witness: one second apart, the two filenames for identical parameters
differ. -/
theorem filename_pattern_and_unique_witness :
    ("20250712-080000" : String) ≠ "20250712-080001" ∧
    (generate_unique_filename "BTC-PERPETUAL" "funding_rate_history" "2025-07-10" "2025-07-17"
          "20250712-080000"
        = "DERIBIT_" ++ "BTC-PERPETUAL" ++ "_" ++ "funding_rate_history" ++ "_from_"
            ++ "2025-07-10" ++ "_to_" ++ "2025-07-17" ++ "_at_" ++ "20250712-080000" ++ ".csv" ∧
      generate_unique_filename "BTC-PERPETUAL" "funding_rate_history" "2025-07-10" "2025-07-17"
          "20250712-080000"
        ≠ generate_unique_filename "BTC-PERPETUAL" "funding_rate_history" "2025-07-10"
            "2025-07-17" "20250712-080001") :=
  ⟨by decide,
    filename_pattern_and_unique "BTC-PERPETUAL" "funding_rate_history" "2025-07-10" "2025-07-17"
      "20250712-080000" "20250712-080001" (by decide)⟩

/-- C5: in every run whose aggregated dataset is empty, `download_historical_data`
reports that no data was downloaded (the `true` flag), the filesystem state is
returned unchanged — no CSV file written, no directory created, by it or by
`_save_data_to_csv` — and the run completes normally (`some`, no exception). -/
theorem empty_dataset_no_write (fetch : Int → Int → Option (List Record))
    (run_timestamp : String) (off : Int) (fs : FS)
    (h : runFinalData fetch off = some []) :
    download_historical_data fetch run_timestamp off fs = some (fs, true) := by
  simp [download_historical_data, h]

/-- C5 witness: when every chunk fetch fails the aggregated dataset of the
configured 2025-07-10 to 2025-07-17 run is empty, and the run reports no data
and leaves the (empty) filesystem untouched. -/
theorem empty_dataset_no_write_witness :
    runFinalData alwaysFailFetcher 0 = some [] ∧
    download_historical_data alwaysFailFetcher "20250712-080000" 0 ⟨[], []⟩
      = some (⟨[], []⟩, true) :=
  ⟨by decide,
    empty_dataset_no_write alwaysFailFetcher "20250712-080000" 0 ⟨[], []⟩ (by decide)⟩

/-- C6: if every chunk fetch succeeds with exactly `N` records, the list
`_fetch_data_in_chunks` returns is the concatenation of the per-window results
in chunk fetch order (earlier chunks first, within-chunk order preserved), and
its length is `number of chunks × N`. -/
theorem all_chunks_succeed_aggregation {α : Type} (fetch : Int → Int → Option (List α))
    (S E : Int) (days N : Nat) (hdays : 1 ≤ days)
    (hf : ∀ s e : Int, ∃ l, fetch s e = some l ∧ l.length = N) :
    fetch_data_in_chunks fetch S E days
        = (loopWindows (E - S).toNat E (chunkSizeMs days) S).flatMap
            (fun v => chunkContribution (fetch v.1 v.2)) ∧
      (fetch_data_in_chunks fetch S E days).length = numChunks E (chunkSizeMs days) S * N := by
  have hc : 0 < chunkSizeMs days := by
    simp only [chunkSizeMs]
    have h1 : (1 : Int) ≤ (days : Int) := by exact_mod_cast hdays
    omega
  have h1 := loopFetch_eq_flatMap (E - S).toNat fetch E (chunkSizeMs days) S
  refine ⟨h1, ?_⟩
  have h2 : fetch_data_in_chunks fetch S E days
      = (loopWindows (E - S).toNat E (chunkSizeMs days) S).flatMap
          (fun v => chunkContribution (fetch v.1 v.2)) := h1
  rw [h2, flatMap_length_const _ _ N (fun w _ => by
    obtain ⟨l, hl, hlen⟩ := hf w.1 w.2
    rw [hl, chunkContribution_some, hlen]),
    loopWindows_length E (chunkSizeMs days) hc _ S le_rfl]

/-- C6 witness: two one-day chunks, each fetch returning `[5, 6]`, aggregate to
`[5, 6, 5, 6]`: 2 chunks × 2 records, in chunk order. -/
theorem all_chunks_succeed_aggregation_witness :
    ((1 : Nat) ≤ 1 ∧ ∀ s e : Int, ∃ l, twoRecordFetcher s e = some l ∧ l.length = 2) ∧
    (fetch_data_in_chunks twoRecordFetcher 1752105600000 1752278400000 1
        = (loopWindows ((1752278400000 : Int) - 1752105600000).toNat 1752278400000
            (chunkSizeMs 1) 1752105600000).flatMap
            (fun v => chunkContribution (twoRecordFetcher v.1 v.2)) ∧
      (fetch_data_in_chunks twoRecordFetcher 1752105600000 1752278400000 1).length
        = numChunks 1752278400000 (chunkSizeMs 1) 1752105600000 * 2) ∧
    fetch_data_in_chunks twoRecordFetcher 1752105600000 1752278400000 1 = [5, 6, 5, 6] ∧
    numChunks 1752278400000 (chunkSizeMs 1) 1752105600000 = 2 :=
  ⟨⟨by decide, fun s e => ⟨[5, 6], rfl, rfl⟩⟩,
    all_chunks_succeed_aggregation twoRecordFetcher 1752105600000 1752278400000 1 2
      (by decide) (fun s e => ⟨[5, 6], rfl, rfl⟩),
    by decide, by decide⟩

/-- C7: for every date string that `strptime` accepts, converting it to epoch
milliseconds with `_date_to_timestamp_ms` and converting the result back to a
calendar date through the same local-time conversion the program uses
(`fromtimestamp(ts / 1000)`, any fixed local offset `off`) yields the same
calendar date. -/
theorem date_roundtrip (off : Int) (s : String) (y m d : Int)
    (hp : parseDate s = some (y, m, d)) :
    (date_to_timestamp_ms off s).map (timestamp_ms_to_date off) = some (y, m, d) := by
  obtain ⟨hy1, hy2, hm1, hm2, hd1, hd2⟩ := parseDate_bounds s y m d hp
  simp only [date_to_timestamp_ms, hp, Option.map_some', timestamp_ms_to_date,
    epochDaysToCivil, epochDaysFromCivil]
  have key : ((((toOrdinal y m d - 719163) * 86400 - off) * 1000) / 1000 + off) / 86400 + 719163
      = toOrdinal y m d := by omega
  rw [key, ord2ymd_toOrdinal y m d hy1 hm1 hm2 hd1 hd2]

/-- C7 witness: "2025-07-10" at local offset UTC+2 becomes 1752098400000 ms and
converts back to 2025-07-10. -/
theorem date_roundtrip_witness :
    parseDate "2025-07-10" = some (2025, 7, 10) ∧
    (date_to_timestamp_ms 7200 "2025-07-10").map (timestamp_ms_to_date 7200)
      = some (2025, 7, 10) ∧
    date_to_timestamp_ms 7200 "2025-07-10" = some 1752098400000 ∧
    timestamp_ms_to_date 7200 1752098400000 = (2025, 7, 10) :=
  ⟨by decide, date_roundtrip 7200 "2025-07-10" 2025 7 10 (by decide), by decide, by decide⟩

/-- C8: for `chunk_size_days ≥ 1` the while loop of `_fetch_data_in_chunks`
terminates: it runs at most `(E - S).toNat` iterations (the stride is at least
one millisecond, so the cursor strictly increases until it reaches the end),
and both its window sequence and its aggregated data are the same under every
iteration bound of at least `(E - S).toNat`. -/
theorem loop_terminates_stably {α : Type} (fetch : Int → Int → Option (List α))
    (S E : Int) (days : Nat) (hdays : 1 ≤ days) (fuel1 fuel2 : Nat)
    (h1 : (E - S).toNat ≤ fuel1) (h2 : (E - S).toNat ≤ fuel2) :
    loopFetch fuel1 fetch E (chunkSizeMs days) S = loopFetch fuel2 fetch E (chunkSizeMs days) S
      ∧ loopWindows fuel1 E (chunkSizeMs days) S = loopWindows fuel2 E (chunkSizeMs days) S
      ∧ (loopWindows fuel1 E (chunkSizeMs days) S).length ≤ (E - S).toNat := by
  have hc : 0 < chunkSizeMs days := by
    simp only [chunkSizeMs]
    have hone : (1 : Int) ≤ (days : Int) := by exact_mod_cast hdays
    omega
  refine ⟨loopFetch_congr fetch E (chunkSizeMs days) hc fuel1 fuel2 S h1 h2,
    loopWindows_congr E (chunkSizeMs days) hc fuel1 fuel2 S h1 h2, ?_⟩
  rw [loopWindows_congr E (chunkSizeMs days) hc fuel1 (E - S).toNat S h1 le_rfl]
  exact loopWindows_length_le_fuel _ E _ S

/-- C8 witness: on the two-day example range the loop behaves identically under
the tight bound and a much larger one, and visits at most `(E - S).toNat`
windows. -/
theorem loop_terminates_stably_witness :
    ((1 : Nat) ≤ 1 ∧
      ((1752278400000 : Int) - 1752105600000).toNat ≤ 172800000 ∧
      ((1752278400000 : Int) - 1752105600000).toNat ≤ 999999999) ∧
    (loopFetch 172800000 twoRecordFetcher 1752278400000 (chunkSizeMs 1) 1752105600000
        = loopFetch 999999999 twoRecordFetcher 1752278400000 (chunkSizeMs 1) 1752105600000
      ∧ loopWindows 172800000 1752278400000 (chunkSizeMs 1) 1752105600000
        = loopWindows 999999999 1752278400000 (chunkSizeMs 1) 1752105600000
      ∧ (loopWindows 172800000 1752278400000 (chunkSizeMs 1) 1752105600000).length
        ≤ ((1752278400000 : Int) - 1752105600000).toNat) :=
  ⟨⟨by decide, by decide, by decide⟩,
    loop_terminates_stably twoRecordFetcher 1752105600000 1752278400000 1 (by decide)
      172800000 999999999 (by decide) (by decide)⟩

/-- C9: an HTTP response whose JSON body has neither a `result` key nor an
`error` key makes `_get_funding_rate_history_chunk` fall through to its final
`return None`: the failure signal, never a malformed or partial value. -/
theorem unrecognized_body_yields_none {β : Type} (json : List (String × β))
    (hr : json.lookup "result" = none) (he : json.lookup "error" = none) :
    get_funding_rate_history_chunk (HttpOutcome.body json) = none := by
  simp only [get_funding_rate_history_chunk, hr, he]

/-- C9 witness: a body with only an unrelated key yields `None`. -/
theorem unrecognized_body_yields_none_witness :
    ([(("foo" : String), (3 : Nat))].lookup "result" = none ∧
      [(("foo" : String), (3 : Nat))].lookup "error" = none) ∧
    get_funding_rate_history_chunk (HttpOutcome.body [(("foo" : String), (3 : Nat))]) = none :=
  ⟨⟨by decide, by decide⟩,
    unrecognized_body_yields_none [("foo", 3)] (by decide) (by decide)⟩

/-- C10: calling `_save_data_to_csv` with an empty record list leaves the
filesystem state completely unchanged — no file is created or truncated and no
directory is created, because the empty-input check returns before the
`os.makedirs` step. -/
theorem save_empty_fs_unchanged (file_path : String) (fs : FS) :
    save_data_to_csv [] file_path fs = fs := rfl

end Deribit
